import Mathlib

/-!
Shallow embedding of the signal-orchestration core of
`farisdewantoro/golang-day-trading-signal`.

Conventions of the embedding:
* Go `float64` prices are modelled as `ℚ`; Go `time.Time` values are modelled
  as `Int` counted in seconds (so `time.Minute` is `60` units and the batch
  loop's `time.Sleep(3 * time.Second)` is `3` units).
* The three external collaborators (Yahoo Finance fetch, Gemini content
  generation + JSON parse, Telegram delivery) are oracles: fallible calls are
  fields of `Env`, outbound deliveries are recorded as `Event`s in a trace.
* Go methods that return nothing and only perform effects are modelled as
  total functions returning their computed data together with the event trace.
-/

namespace DayTrading

/-- models.OHLCData (models/types.go:6-13): one candlestick. -/
structure OHLCData where
  Timestamp : Int
  Open : ℚ
  High : ℚ
  Low : ℚ
  Close : ℚ
  Volume : Int
deriving Repr, DecidableEq

/-- models.OHLCVAnalysis (models/types.go:16-23). -/
structure OHLCVAnalysis where
  Open : ℚ
  High : ℚ
  Low : ℚ
  Close : ℚ
  Volume : Int
  Explanation : String
deriving Repr, DecidableEq

/-- models.TradingSignal (models/types.go:26-37). -/
structure TradingSignal where
  Signal : String
  BuyPrice : ℚ
  TargetPrice : ℚ
  StopLoss : ℚ
  Confidence : Int
  NewsSummary : String
  Reason : String
  StockSymbol : String
  GeneratedAt : Int
  OHLCVAnalysis : Option OHLCVAnalysis
deriving Repr, DecidableEq

/-- models.SignalSummary (models/types.go:86-93). -/
structure SignalSummary where
  TotalAnalyzed : Nat
  BuySignals : List TradingSignal
  SellSignals : List TradingSignal
  HoldSignals : List TradingSignal
  FailedSignals : List String
  GeneratedAt : Int
deriving Repr, DecidableEq

/-- models.Config (models/types.go:72-83), restricted to the fields the
orchestration core reads. -/
structure Config where
  StockSymbols : List String
  SignalCooldownMins : Nat
deriving Repr, DecidableEq

/-- Outbound effects of an orchestration run, in program order.
`sendSignal` models TelegramService.SendTradingSignal / SendTradingSignalToChat,
`sendSummary` models SendSignalSummary, `sendRequestReceived` models
SendRequestReceivedMessage, `sleep` models time.Sleep (seconds), and
`fetch`/`infer` record the two upstream calls. -/
inductive Event where
  | fetch (symbol : String)
  | infer (symbol : String)
  | sleep (secs : Nat)
  | sendSignal (signal : TradingSignal)
  | sendSummary (summary : SignalSummary)
  | sendRequestReceived (totalStocks : Nat)
deriving Repr, DecidableEq

def Event.isFetch : Event → Bool
  | .fetch _ => true
  | _ => false

def Event.isSendSignal : Event → Bool
  | .sendSignal _ => true
  | _ => false

/-- Seconds slept by a single event (0 for everything but `sleep`). -/
def Event.sleepSeconds : Event → Nat
  | .sleep n => n
  | _ => 0

/-- Total seconds spent in `time.Sleep` over a trace. -/
def sleepSecondsTotal (events : List Event) : Nat :=
  (events.map Event.sleepSeconds).sum

/-- External collaborators, at their interface boundary.
`fetchOHLCData` is YahooFinanceService.FetchOHLCData (services/yahoo_finance.go:31-126):
an HTTP round trip that either errors or yields the parsed bar list.
`inferSignal` is the external part of GeminiAIService.GenerateTradingSignal
(services/gemini_ai.go:41-63): the genai GenerateContent call, the
candidate/part checks and the JSON parse, which either error or yield the
un-stamped decoded signal. -/
structure Env where
  fetchOHLCData : String → Except String (List OHLCData)
  inferSignal : String → List OHLCData → Except String TradingSignal

def exceptOk {ε α : Type} : Except ε α → Bool
  | .ok _ => true
  | .error _ => false

/-- strings.ToUpper from the Go standard library, applied here only to the
ASCII direction strings: uppercase every character. -/
def goToUpper (s : String) : String := String.mk (s.data.map Char.toUpper)

/-- strings.TrimSpace from the Go standard library: drop leading and
trailing whitespace. -/
def goTrimSpace (s : String) : String :=
  String.mk (((s.data.dropWhile Char.isWhitespace).reverse.dropWhile
    Char.isWhitespace).reverse)

def splitOnCharAux (sep : Char) : List Char → List Char → List (List Char)
  | [], acc => [acc.reverse]
  | c :: rest, acc =>
    if c = sep then acc.reverse :: splitOnCharAux sep rest []
    else splitOnCharAux sep rest (c :: acc)

/-- strings.Split(s, sep) from the Go standard library for a one-character
separator: the fields between occurrences of the separator, in order. -/
def goSplitOn (sep : Char) (s : String) : List String :=
  (splitOnCharAux sep s.data []).map String.mk

def parseNatAux : List Char → Nat → Nat
  | [], n => n
  | c :: rest, n => parseNatAux rest (n * 10 + (c.toNat - 48))

/-- Decimal parse of a nonempty all-digit string (otherwise `none`). -/
def parseNatNum (s : String) : Option Nat :=
  if s.data ≠ [] && s.data.all Char.isDigit then some (parseNatAux s.data 0)
  else none

/-- GeminiAIService.GenerateTradingSignal (services/gemini_ai.go:41-69): on
success of the external call the code stamps StockSymbol and GeneratedAt
(lines 65-66) before returning. -/
def GenerateTradingSignal (env : Env) (now : Int) (symbol : String)
    (ohlcData : List OHLCData) : Except String TradingSignal :=
  match env.inferSignal symbol ohlcData with
  | .error e => .error e
  | .ok signal => .ok { signal with StockSymbol := symbol, GeneratedAt := now }

/-- TradingSignalService.GenerateSignal (unnamed/part_002:40-71): fetch the
bars (one attempt), error on fetch failure or an empty series, then call the
inference service; the trace records the upstream calls made. The
commented-out Telegram send at lines 62-68 is absent. -/
def GenerateSignal (env : Env) (now : Int) (symbol : String) :
    Except String TradingSignal × List Event :=
  match env.fetchOHLCData symbol with
  | .error e => (.error ("failed to fetch OHLC data: " ++ e), [.fetch symbol])
  | .ok ohlcData =>
    if ohlcData.length = 0 then
      (.error ("no OHLC data available for " ++ symbol), [.fetch symbol])
    else
      match GenerateTradingSignal env now symbol ohlcData with
      | .error e =>
          (.error ("failed to generate AI signal: " ++ e),
            [.fetch symbol, .infer symbol])
      | .ok signal => (.ok signal, [.fetch symbol, .infer symbol])

/-- The signalCache field of TradingSignalService (unnamed/part_002:19): a Go
map from symbol to the last-signal timestamp, modelled as an association list
with unique keys. -/
abbrev SignalCache := List (String × Int)

def cacheLookup : SignalCache → String → Option Int
  | [], _ => none
  | (s, t) :: rest, symbol => if s = symbol then some t else cacheLookup rest symbol

def cacheUpdate : SignalCache → String → Int → SignalCache
  | [], symbol, t => [(symbol, t)]
  | (s, t0) :: rest, symbol, t =>
    if s = symbol then (s, t) :: rest else (s, t0) :: cacheUpdate rest symbol t

/-- TradingSignalService.canGenerateSignal (unnamed/part_002:74-85):
cooldownDuration is SignalCooldownMins minutes, i.e. `60 * mins` time units;
`time.Since(lastSignal) >= cooldownDuration` becomes
`mins * 60 ≤ now - lastSignal`. -/
def canGenerateSignal (config : Config) (now : Int) (cache : SignalCache)
    (symbol : String) : Bool :=
  match cacheLookup cache symbol with
  | none => true
  | some lastSignal => decide ((config.SignalCooldownMins : Int) * 60 ≤ now - lastSignal)

/-- TradingSignalService.updateSignalCache (unnamed/part_002:88-92):
`t.signalCache[symbol] = time.Now()`. -/
def updateSignalCache (cache : SignalCache) (symbol : String) (now : Int) : SignalCache :=
  cacheUpdate cache symbol now

/-- The four local result buckets of a batch run
(unnamed/part_002:118-121 and 187-190). -/
structure BatchAcc where
  BuySignals : List TradingSignal
  SellSignals : List TradingSignal
  HoldSignals : List TradingSignal
  FailedSignals : List String
deriving Repr, DecidableEq

def BatchAcc.empty : BatchAcc := ⟨[], [], [], []⟩

/-- `failedSignals = append(failedSignals, symbol)`: the Go loop appends at
the tail; the recursion below processes the head symbol first and conses its
contribution onto the result for the remaining symbols, producing the same
list. -/
def consFailed (symbol : String) (acc : BatchAcc) : BatchAcc :=
  { acc with FailedSignals := symbol :: acc.FailedSignals }

/-- The categorization switch of both batch loops (unnamed/part_002:136-145
and 219-228): `switch strings.ToUpper(signal.Signal)` with cases "BUY",
"SELL", "WAIT", "HOLD" and a default that also goes to hold. -/
def consClassified (signal : TradingSignal) (acc : BatchAcc) : BatchAcc :=
  match goToUpper signal.Signal with
  | "BUY" => { acc with BuySignals := signal :: acc.BuySignals }
  | "SELL" => { acc with SellSignals := signal :: acc.SellSignals }
  | "WAIT" => { acc with HoldSignals := signal :: acc.HoldSignals }
  | "HOLD" => { acc with HoldSignals := signal :: acc.HoldSignals }
  | _ => { acc with HoldSignals := signal :: acc.HoldSignals }

/-- The loop body of GenerateAllSignals (unnamed/part_002:124-151): call
GenerateSignal; on error append to failed and `continue` (which skips the
sleep); on success classify and, when the symbol is not the last one
(`i < len-1`, i.e. the remaining list is nonempty), sleep 3 seconds. -/
def generateAllSignalsLoop (env : Env) (now : Int) : List String → BatchAcc × List Event
  | [] => (BatchAcc.empty, [])
  | symbol :: rest =>
    let step := GenerateSignal env now symbol
    let next := generateAllSignalsLoop env now rest
    match step.1 with
    | .error _ => (consFailed symbol next.1, step.2 ++ next.2)
    | .ok signal =>
        (consClassified signal next.1,
          step.2 ++ ((if rest.isEmpty then [] else [Event.sleep 3]) ++ next.2))

/-- The summary construction shared by both batch runs
(unnamed/part_002:154-161 and 237-244): TotalAnalyzed is
`len(t.config.StockSymbols)`. -/
def buildSummary (symbols : List String) (acc : BatchAcc) (now : Int) : SignalSummary :=
  { TotalAnalyzed := symbols.length
    BuySignals := acc.BuySignals
    SellSignals := acc.SellSignals
    HoldSignals := acc.HoldSignals
    FailedSignals := acc.FailedSignals
    GeneratedAt := now }

/-- TradingSignalService.GenerateAllSignals (unnamed/part_002:114-173): the
goroutine body — run the loop over the configured symbols, build the summary
and send it (SendSignalSummary) exactly once. No per-symbol send occurs. -/
def GenerateAllSignals (env : Env) (config : Config) (now : Int) :
    SignalSummary × List Event :=
  let r := generateAllSignalsLoop env now config.StockSymbols
  let summary := buildSummary config.StockSymbols r.1 now
  (summary, r.2 ++ [Event.sendSummary summary])

/-- The loop body of GenerateAllSignalsSummary (unnamed/part_002:193-234):
inline fetch / empty-check / infer with `continue` on each failure (skipping
the sleep), classification and the same not-last sleep. -/
def generateAllSignalsSummaryLoop (env : Env) (now : Int) :
    List String → BatchAcc × List Event
  | [] => (BatchAcc.empty, [])
  | symbol :: rest =>
    let next := generateAllSignalsSummaryLoop env now rest
    match env.fetchOHLCData symbol with
    | .error _ => (consFailed symbol next.1, Event.fetch symbol :: next.2)
    | .ok ohlcData =>
      if ohlcData.length = 0 then
        (consFailed symbol next.1, Event.fetch symbol :: next.2)
      else
        match GenerateTradingSignal env now symbol ohlcData with
        | .error _ =>
            (consFailed symbol next.1,
              Event.fetch symbol :: Event.infer symbol :: next.2)
        | .ok signal =>
            (consClassified signal next.1,
              Event.fetch symbol :: Event.infer symbol ::
                ((if rest.isEmpty then [] else [Event.sleep 3]) ++ next.2))

/-- TradingSignalService.GenerateAllSignalsSummary (unnamed/part_002:176-256):
send the request-received message, run the inline loop, build and send the
summary. -/
def GenerateAllSignalsSummary (env : Env) (config : Config) (now : Int) :
    SignalSummary × List Event :=
  let r := generateAllSignalsSummaryLoop env now config.StockSymbols
  let summary := buildSummary config.StockSymbols r.1 now
  (summary,
    Event.sendRequestReceived config.StockSymbols.length ::
      (r.2 ++ [Event.sendSummary summary]))

/-- TelegramService.calculateRiskRewardRatio (services/gemini_ai.go
concatenation, telegram section lines 460-490): returns (risk, reward,
ratio, err). Note every `return` in the Go function passes `nil` as the
error — invalid signal types and non-positive risk/reward are only logged —
so the err component is `none` on every path, exactly as in the source. -/
def calculateRiskRewardRatio (signal : TradingSignal) : ℚ × ℚ × ℚ × Option String :=
  if signal.Signal = "WAIT" then (0, 0, 0, none)
  else if signal.Signal = "BUY" then
    let risk := signal.BuyPrice - signal.StopLoss
    let reward := signal.TargetPrice - signal.BuyPrice
    if risk ≤ 0 then (0, 0, 0, none)
    else if reward ≤ 0 then (0, 0, 0, none)
    else (risk, reward, reward / risk, none)
  else if signal.Signal = "SELL" then
    let risk := signal.StopLoss - signal.BuyPrice
    let reward := signal.BuyPrice - signal.TargetPrice
    if risk ≤ 0 then (0, 0, 0, none)
    else if reward ≤ 0 then (0, 0, 0, none)
    else (risk, reward, reward / risk, none)
  else (0, 0, 0, none)

/-- The risk-reward block of TelegramService.formatSignalMessage (telegram
section lines 523-535): when `signal.Signal != "WAIT"`, the code calls
calculateRiskRewardRatio and, if the returned err is nil, appends the block
showing (risk, reward, ratio); `some` = the block is present in the message
with those three values, `none` = the block is omitted. -/
def formatSignalMessageRatioSection (signal : TradingSignal) : Option (ℚ × ℚ × ℚ) :=
  if signal.Signal ≠ "WAIT" then
    match calculateRiskRewardRatio signal with
    | (risk, reward, ratio, none) => some (risk, reward, ratio)
    | (_, _, _, some _) => none
  else none

/-- One registered cron job: the minute and hour fields of the generated
expression `"minute hour * * *"` (services/cron_scheduler.go:62). -/
structure CronEntry where
  minute : String
  hour : String
deriving Repr, DecidableEq

/-- The success condition of the external robfig/cron AddFunc for the
expressions produced by Start, which always have the shape
`"minute hour * * *"`: such an expression parses iff the minute field is a
number in 0..59 and the hour field a number in 0..23. -/
def numFieldOk (s : String) (lo hi : Nat) : Bool :=
  match parseNatNum s with
  | some n => decide (lo ≤ n) && decide (n ≤ hi)
  | none => false

def addFuncOk (minute hour : String) : Bool :=
  numFieldOk minute 0 59 && numFieldOk hour 0 23

/-- CronScheduler.Start (services/cron_scheduler.go:40-81): for each
configured time, trim it, skip empty strings, split on ":", skip entries
that do not split into exactly two fields (`parts[0]` is the hour,
`parts[1]` the minute), and register `"minute hour * * *"` with AddFunc,
skipping entries AddFunc rejects. The result is the list of registered
jobs, i.e. `cs.cron.Entries()` after Start. -/
def cronStart : List String → List CronEntry
  | [] => []
  | scheduleTime :: rest =>
    let trimmed := goTrimSpace scheduleTime
    if trimmed = "" then cronStart rest
    else
      match goSplitOn ':' trimmed with
      | [hour, minute] =>
        if addFuncOk minute hour then ⟨minute, hour⟩ :: cronStart rest
        else cronStart rest
      | _ => cronStart rest

/-- The fields of CronScheduler.GetScheduleInfo (services/cron_scheduler.go:
112-123) that do not depend on wall-clock time: timezone, the raw configured
strings, and `active_jobs = len(cs.cron.Entries())`. -/
structure ScheduleInfo where
  timezone : String
  configuredTimes : List String
  activeJobs : Nat
deriving Repr, DecidableEq

def GetScheduleInfo (scheduleTimes : List String) : ScheduleInfo :=
  { timezone := "Asia/Jakarta"
    configuredTimes := scheduleTimes
    activeJobs := (cronStart scheduleTimes).length }

/-- The mutable state held by TradingSignalService (unnamed/part_002:14-21):
the cooldown cache is its only mutable field. -/
structure ServiceState where
  signalCache : SignalCache
deriving Repr, DecidableEq

/-- GenerateSignal threaded through the service state: the method body
(unnamed/part_002:40-71) contains no access to `t.signalCache`, so the
translation neither reads nor writes the state parameter. -/
def GenerateSignalSt (env : Env) (st : ServiceState) (now : Int) (symbol : String) :
    (Except String TradingSignal × List Event) × ServiceState :=
  (GenerateSignal env now symbol, st)

/-- GenerateAllSignals threaded through the service state: the goroutine body
(unnamed/part_002:114-173) never touches `t.signalCache`. -/
def GenerateAllSignalsSt (env : Env) (config : Config) (st : ServiceState) (now : Int) :
    (SignalSummary × List Event) × ServiceState :=
  (GenerateAllSignals env config now, st)

/-- GenerateAllSignalsSummary threaded through the service state: the
goroutine body (unnamed/part_002:176-256) never touches `t.signalCache`. -/
def GenerateAllSignalsSummarySt (env : Env) (config : Config) (st : ServiceState) (now : Int) :
    (SignalSummary × List Event) × ServiceState :=
  (GenerateAllSignalsSummary env config now, st)

/-- A concrete bar for test environments. -/
def bar1 : OHLCData :=
  { Timestamp := 0, Open := 100, High := 110, Low := 95, Close := 105, Volume := 1000 }

/-- A concrete raw inference result with direction "BUY" and coherent levels. -/
def sigBuyRaw : TradingSignal :=
  { Signal := "BUY", BuyPrice := 100, TargetPrice := 120, StopLoss := 90
    Confidence := 80, NewsSummary := "", Reason := "breakout"
    StockSymbol := "", GeneratedAt := 0, OHLCVAnalysis := none }

/-- Environment in which every fetch and every inference succeeds. -/
def envOk : Env :=
  { fetchOHLCData := fun _ => .ok [bar1]
    inferSignal := fun _ _ => .ok sigBuyRaw }

/-- Environment in which every fetch fails. -/
def envFail : Env :=
  { fetchOHLCData := fun _ => .error "network error"
    inferSignal := fun _ _ => .error "no response generated from Gemini" }

/-- Environment matching the spec end-to-end scenario: data for every symbol
except "B", whose fetch errors; inference yields the BUY signal. -/
def envAB : Env :=
  { fetchOHLCData := fun symbol =>
      if symbol = "B" then .error "no data returned for symbol: B" else .ok [bar1]
    inferSignal := fun _ _ => .ok sigBuyRaw }

def configAB : Config := { StockSymbols := ["A", "B"], SignalCooldownMins := 15 }

def configTwo : Config := { StockSymbols := ["TLKM", "BBCA"], SignalCooldownMins := 15 }

def configOne : Config := { StockSymbols := ["BBCA"], SignalCooldownMins := 15 }

/-- A BUY signal with stop above entry: risk = 100 - 110 is non-positive. -/
def sigBadBuy : TradingSignal :=
  { Signal := "BUY", BuyPrice := 100, TargetPrice := 120, StopLoss := 110
    Confidence := 70, NewsSummary := "", Reason := "r"
    StockSymbol := "BBCA", GeneratedAt := 0, OHLCVAnalysis := none }

/-- A SELL signal with coherent levels: risk = 110 - 100, reward = 100 - 80. -/
def sigSellRaw : TradingSignal :=
  { Signal := "SELL", BuyPrice := 100, TargetPrice := 80, StopLoss := 110
    Confidence := 75, NewsSummary := "", Reason := "breakdown"
    StockSymbol := "BBRI", GeneratedAt := 0, OHLCVAnalysis := none }

/-! Helper lemmas about the classification step and the two batch loops. -/

theorem consClassified_FailedSignals (signal : TradingSignal) (acc : BatchAcc) :
    (consClassified signal acc).FailedSignals = acc.FailedSignals := by
  unfold consClassified
  split <;> rfl

theorem consClassified_BuySignals (signal : TradingSignal) (acc : BatchAcc) :
    (consClassified signal acc).BuySignals =
      if goToUpper signal.Signal = "BUY" then signal :: acc.BuySignals
      else acc.BuySignals := by
  unfold consClassified
  split <;> simp_all

theorem consClassified_SellSignals (signal : TradingSignal) (acc : BatchAcc) :
    (consClassified signal acc).SellSignals =
      if goToUpper signal.Signal = "SELL" then signal :: acc.SellSignals
      else acc.SellSignals := by
  unfold consClassified
  split <;> simp_all

theorem consClassified_HoldSignals (signal : TradingSignal) (acc : BatchAcc) :
    (consClassified signal acc).HoldSignals =
      if goToUpper signal.Signal = "BUY" ∨ goToUpper signal.Signal = "SELL" then
        acc.HoldSignals
      else signal :: acc.HoldSignals := by
  unfold consClassified
  split <;> simp_all

theorem consClassified_counts (signal : TradingSignal) (acc : BatchAcc) :
    (consClassified signal acc).BuySignals.length
      + (consClassified signal acc).SellSignals.length
      + (consClassified signal acc).HoldSignals.length
      + (consClassified signal acc).FailedSignals.length
    = acc.BuySignals.length + acc.SellSignals.length + acc.HoldSignals.length
      + acc.FailedSignals.length + 1 := by
  unfold consClassified
  split <;> simp <;> omega

theorem generateAllSignalsLoop_cons (env : Env) (now : Int) (symbol : String)
    (rest : List String) :
    generateAllSignalsLoop env now (symbol :: rest) =
      match (GenerateSignal env now symbol).1 with
      | .error _ =>
          (consFailed symbol (generateAllSignalsLoop env now rest).1,
            (GenerateSignal env now symbol).2 ++ (generateAllSignalsLoop env now rest).2)
      | .ok signal =>
          (consClassified signal (generateAllSignalsLoop env now rest).1,
            (GenerateSignal env now symbol).2 ++
              ((if rest.isEmpty then [] else [Event.sleep 3]) ++
                (generateAllSignalsLoop env now rest).2)) := rfl

theorem generateAllSignalsSummaryLoop_cons (env : Env) (now : Int) (symbol : String)
    (rest : List String) :
    generateAllSignalsSummaryLoop env now (symbol :: rest) =
      match env.fetchOHLCData symbol with
      | .error _ =>
          (consFailed symbol (generateAllSignalsSummaryLoop env now rest).1,
            Event.fetch symbol :: (generateAllSignalsSummaryLoop env now rest).2)
      | .ok ohlcData =>
        if ohlcData.length = 0 then
          (consFailed symbol (generateAllSignalsSummaryLoop env now rest).1,
            Event.fetch symbol :: (generateAllSignalsSummaryLoop env now rest).2)
        else
          match GenerateTradingSignal env now symbol ohlcData with
          | .error _ =>
              (consFailed symbol (generateAllSignalsSummaryLoop env now rest).1,
                Event.fetch symbol :: Event.infer symbol ::
                  (generateAllSignalsSummaryLoop env now rest).2)
          | .ok signal =>
              (consClassified signal (generateAllSignalsSummaryLoop env now rest).1,
                Event.fetch symbol :: Event.infer symbol ::
                  ((if rest.isEmpty then [] else [Event.sleep 3]) ++
                    (generateAllSignalsSummaryLoop env now rest).2)) := rfl

theorem generateAllSignalsLoop_counts (env : Env) (now : Int) (symbols : List String) :
    (generateAllSignalsLoop env now symbols).1.BuySignals.length
      + (generateAllSignalsLoop env now symbols).1.SellSignals.length
      + (generateAllSignalsLoop env now symbols).1.HoldSignals.length
      + (generateAllSignalsLoop env now symbols).1.FailedSignals.length
    = symbols.length := by
  induction symbols with
  | nil => simp [generateAllSignalsLoop, BatchAcc.empty]
  | cons symbol rest ih =>
    rw [generateAllSignalsLoop_cons]
    cases h : (GenerateSignal env now symbol).1 with
    | error e => simp [h, consFailed]; omega
    | ok signal =>
      have hc := consClassified_counts signal (generateAllSignalsLoop env now rest).1
      simp [h]
      omega

theorem generateAllSignalsSummaryLoop_counts (env : Env) (now : Int)
    (symbols : List String) :
    (generateAllSignalsSummaryLoop env now symbols).1.BuySignals.length
      + (generateAllSignalsSummaryLoop env now symbols).1.SellSignals.length
      + (generateAllSignalsSummaryLoop env now symbols).1.HoldSignals.length
      + (generateAllSignalsSummaryLoop env now symbols).1.FailedSignals.length
    = symbols.length := by
  induction symbols with
  | nil => simp [generateAllSignalsSummaryLoop, BatchAcc.empty]
  | cons symbol rest ih =>
    rw [generateAllSignalsSummaryLoop_cons]
    cases h1 : env.fetchOHLCData symbol with
    | error e => simp [h1, consFailed]; omega
    | ok ohlcData =>
      by_cases hlen : ohlcData.length = 0
      · simp [h1, hlen, consFailed]; omega
      · cases h2 : GenerateTradingSignal env now symbol ohlcData with
        | error e => simp [h1, hlen, h2, consFailed]; omega
        | ok signal =>
          have hc := consClassified_counts signal
            (generateAllSignalsSummaryLoop env now rest).1
          simp [h1, hlen, h2]
          omega

theorem GenerateSignal_events (env : Env) (now : Int) (symbol : String) :
    (GenerateSignal env now symbol).2 = [Event.fetch symbol] ∨
    (GenerateSignal env now symbol).2 = [Event.fetch symbol, Event.infer symbol] := by
  cases h1 : env.fetchOHLCData symbol with
  | error e => simp [GenerateSignal, h1]
  | ok ohlcData =>
    by_cases hlen : ohlcData.length = 0
    · simp [GenerateSignal, h1, hlen]
    · cases h2 : GenerateTradingSignal env now symbol ohlcData with
      | error e => simp [GenerateSignal, h1, hlen, h2]
      | ok signal => simp [GenerateSignal, h1, hlen, h2]

theorem GenerateSignal_no_sleep (env : Env) (now : Int) (symbol : String) :
    sleepSecondsTotal (GenerateSignal env now symbol).2 = 0 := by
  rcases GenerateSignal_events env now symbol with h | h <;>
    simp [h, sleepSecondsTotal, Event.sleepSeconds]

theorem sleepSecondsTotal_append (a b : List Event) :
    sleepSecondsTotal (a ++ b) = sleepSecondsTotal a + sleepSecondsTotal b := by
  simp [sleepSecondsTotal]

theorem generateAllSignalsLoop_failed_mem (env : Env) (now : Int)
    (symbols : List String) (s : String) (hs : s ∈ symbols)
    (hfail : exceptOk (GenerateSignal env now s).1 = false) :
    s ∈ (generateAllSignalsLoop env now symbols).1.FailedSignals := by
  induction symbols with
  | nil => cases hs
  | cons symbol rest ih =>
    rw [generateAllSignalsLoop_cons]
    rcases List.mem_cons.mp hs with rfl | hmem
    · cases h : (GenerateSignal env now s).1 with
      | error e => simp [h, consFailed]
      | ok signal => rw [h] at hfail; simp [exceptOk] at hfail
    · cases h : (GenerateSignal env now symbol).1 with
      | error e =>
        simp only [h, consFailed]
        exact List.mem_cons_of_mem _ (ih hmem)
      | ok signal =>
        simp only [h, consClassified_FailedSignals]
        exact ih hmem

theorem generateAllSignalsSummaryLoop_failed_mem (env : Env) (now : Int)
    (symbols : List String) (s : String) (hs : s ∈ symbols)
    (hfail : exceptOk (GenerateSignal env now s).1 = false) :
    s ∈ (generateAllSignalsSummaryLoop env now symbols).1.FailedSignals := by
  induction symbols with
  | nil => cases hs
  | cons symbol rest ih =>
    rw [generateAllSignalsSummaryLoop_cons]
    rcases List.mem_cons.mp hs with rfl | hmem
    · cases h1 : env.fetchOHLCData s with
      | error e => simp [h1, consFailed]
      | ok ohlcData =>
        by_cases hlen : ohlcData.length = 0
        · simp [h1, hlen, consFailed]
        · cases h2 : GenerateTradingSignal env now s ohlcData with
          | error e => simp [h1, hlen, h2, consFailed]
          | ok signal =>
            exfalso
            rw [GenerateSignal, h1] at hfail
            simp [hlen, h2, exceptOk] at hfail
    · have htail : s ∈ (generateAllSignalsSummaryLoop env now rest).1.FailedSignals :=
        ih hmem
      cases h1 : env.fetchOHLCData symbol with
      | error e =>
        simp only [h1, consFailed]
        exact List.mem_cons_of_mem _ htail
      | ok ohlcData =>
        by_cases hlen : ohlcData.length = 0
        · simp only [h1, if_pos hlen, consFailed]
          exact List.mem_cons_of_mem _ htail
        · cases h2 : GenerateTradingSignal env now symbol ohlcData with
          | error e =>
            simp only [h1, if_neg hlen, h2, consFailed]
            exact List.mem_cons_of_mem _ htail
          | ok signal =>
            simp only [h1, if_neg hlen, h2, consClassified_FailedSignals]
            exact htail

theorem generateAllSignalsLoop_fetch_mem (env : Env) (now : Int)
    (symbols : List String) (s : String) (hs : s ∈ symbols) :
    Event.fetch s ∈ (generateAllSignalsLoop env now symbols).2 := by
  induction symbols with
  | nil => cases hs
  | cons symbol rest ih =>
    rw [generateAllSignalsLoop_cons]
    rcases List.mem_cons.mp hs with rfl | hmem
    · have hfe : Event.fetch s ∈ (GenerateSignal env now s).2 := by
        rcases GenerateSignal_events env now s with h | h <;> simp [h]
      cases h : (GenerateSignal env now s).1 <;>
        simp only [h] <;> exact List.mem_append_left _ hfe
    · cases h : (GenerateSignal env now symbol).1 <;>
        simp only [h] <;> exact List.mem_append_right _ (by
          first
          | exact ih hmem
          | exact List.mem_append_right _ (ih hmem))

theorem generateAllSignalsSummaryLoop_fetch_mem (env : Env) (now : Int)
    (symbols : List String) (s : String) (hs : s ∈ symbols) :
    Event.fetch s ∈ (generateAllSignalsSummaryLoop env now symbols).2 := by
  induction symbols with
  | nil => cases hs
  | cons symbol rest ih =>
    rw [generateAllSignalsSummaryLoop_cons]
    rcases List.mem_cons.mp hs with rfl | hmem
    · cases h1 : env.fetchOHLCData s with
      | error e => simp
      | ok ohlcData =>
        by_cases hlen : ohlcData.length = 0
        · simp [hlen]
        · cases h2 : GenerateTradingSignal env now s ohlcData with
          | error e => simp [hlen, h2]
          | ok signal => simp [hlen, h2]
    · have htail := ih hmem
      cases h1 : env.fetchOHLCData symbol with
      | error e => simp [htail]
      | ok ohlcData =>
        by_cases hlen : ohlcData.length = 0
        · simp [hlen, htail]
        · cases h2 : GenerateTradingSignal env now symbol ohlcData with
          | error e => simp [hlen, h2, htail]
          | ok signal => simp [hlen, h2, htail]

theorem sleepSecondsTotal_cons (e : Event) (l : List Event) :
    sleepSecondsTotal (e :: l) = e.sleepSeconds + sleepSecondsTotal l := by
  simp [sleepSecondsTotal]

theorem exceptOk_error {ε α : Type} (e : ε) :
    exceptOk (Except.error e : Except ε α) = false := rfl

theorem exceptOk_ok {ε α : Type} (a : α) :
    exceptOk (Except.ok a : Except ε α) = true := rfl

theorem GenerateSignal_sleepSeconds_sum (env : Env) (now : Int) (symbol : String) :
    (List.map Event.sleepSeconds (GenerateSignal env now symbol).2).sum = 0 := by
  have h := GenerateSignal_no_sleep env now symbol
  simpa [sleepSecondsTotal] using h

theorem generateAllSignalsLoop_sleep (env : Env) (now : Int) (symbols : List String) :
    sleepSecondsTotal (generateAllSignalsLoop env now symbols).2
      = 3 * symbols.dropLast.countP (fun s => exceptOk (GenerateSignal env now s).1) := by
  induction symbols with
  | nil => simp [generateAllSignalsLoop, sleepSecondsTotal]
  | cons symbol rest ih =>
    rw [generateAllSignalsLoop_cons]
    cases rest with
    | nil =>
      cases h : (GenerateSignal env now symbol).1 with
      | error e =>
        simp [h, GenerateSignal_sleepSeconds_sum,
          generateAllSignalsLoop, sleepSecondsTotal]
      | ok signal =>
        simp [h, GenerateSignal_sleepSeconds_sum,
          generateAllSignalsLoop, sleepSecondsTotal]
    | cons b rest2 =>
      simp only [sleepSecondsTotal] at ih
      cases h : (GenerateSignal env now symbol).1 with
      | error e =>
        simp [h, GenerateSignal_sleepSeconds_sum, ih, exceptOk_error,
          List.dropLast, List.countP_cons, sleepSecondsTotal]
      | ok signal =>
        simp [h, GenerateSignal_sleepSeconds_sum, ih, exceptOk_ok,
          List.dropLast, List.countP_cons, Event.sleepSeconds, sleepSecondsTotal]
        omega

theorem generateAllSignalsSummaryLoop_sleep (env : Env) (now : Int)
    (symbols : List String) :
    sleepSecondsTotal (generateAllSignalsSummaryLoop env now symbols).2
      = 3 * symbols.dropLast.countP (fun s => exceptOk (GenerateSignal env now s).1) := by
  induction symbols with
  | nil => simp [generateAllSignalsSummaryLoop, sleepSecondsTotal]
  | cons symbol rest ih =>
    rw [generateAllSignalsSummaryLoop_cons]
    simp only [sleepSecondsTotal] at ih
    cases h1 : env.fetchOHLCData symbol with
    | error e =>
      have hok : exceptOk (GenerateSignal env now symbol).1 = false := by
        simp [GenerateSignal, h1, exceptOk]
      cases rest with
      | nil =>
        simp [generateAllSignalsSummaryLoop, sleepSecondsTotal,
          Event.sleepSeconds]
      | cons b rest2 =>
        simp [Event.sleepSeconds, ih, List.dropLast, List.countP_cons, hok,
          sleepSecondsTotal]
    | ok ohlcData =>
      by_cases hlen : ohlcData.length = 0
      · have hok : exceptOk (GenerateSignal env now symbol).1 = false := by
          simp [GenerateSignal, h1, hlen, exceptOk]
        cases rest with
        | nil =>
          simp [hlen, generateAllSignalsSummaryLoop, sleepSecondsTotal,
            Event.sleepSeconds]
        | cons b rest2 =>
          simp [hlen, Event.sleepSeconds, ih, List.dropLast,
            List.countP_cons, hok, sleepSecondsTotal]
      · cases h2 : GenerateTradingSignal env now symbol ohlcData with
        | error e =>
          have hok : exceptOk (GenerateSignal env now symbol).1 = false := by
            simp [GenerateSignal, h1, hlen, h2, exceptOk]
          cases rest with
          | nil =>
            simp [hlen, h2, generateAllSignalsSummaryLoop, sleepSecondsTotal,
              Event.sleepSeconds]
          | cons b rest2 =>
            simp [hlen, h2, Event.sleepSeconds, ih, List.dropLast,
              List.countP_cons, hok, sleepSecondsTotal]
        | ok signal =>
          have hok : exceptOk (GenerateSignal env now symbol).1 = true := by
            simp [GenerateSignal, h1, hlen, h2, exceptOk]
          cases rest with
          | nil =>
            simp [hlen, h2, generateAllSignalsSummaryLoop, sleepSecondsTotal,
              Event.sleepSeconds]
          | cons b rest2 =>
            simp [hlen, h2, Event.sleepSeconds, ih, List.dropLast,
              List.countP_cons, hok, sleepSecondsTotal]
            omega

theorem generateAllSignalsLoop_buy_dir (env : Env) (now : Int)
    (symbols : List String) (signal : TradingSignal)
    (h : signal ∈ (generateAllSignalsLoop env now symbols).1.BuySignals) :
    goToUpper signal.Signal = "BUY" := by
  induction symbols with
  | nil => simp [generateAllSignalsLoop, BatchAcc.empty] at h
  | cons symbol rest ih =>
    rw [generateAllSignalsLoop_cons] at h
    cases hr : (GenerateSignal env now symbol).1 with
    | error e =>
      rw [hr] at h
      simp only [consFailed] at h
      exact ih h
    | ok sig2 =>
      rw [hr] at h
      simp only [consClassified_BuySignals] at h
      by_cases hb : goToUpper sig2.Signal = "BUY"
      · rw [if_pos hb] at h
        rcases List.mem_cons.mp h with rfl | h2
        · exact hb
        · exact ih h2
      · rw [if_neg hb] at h
        exact ih h

theorem generateAllSignalsLoop_sell_dir (env : Env) (now : Int)
    (symbols : List String) (signal : TradingSignal)
    (h : signal ∈ (generateAllSignalsLoop env now symbols).1.SellSignals) :
    goToUpper signal.Signal = "SELL" := by
  induction symbols with
  | nil => simp [generateAllSignalsLoop, BatchAcc.empty] at h
  | cons symbol rest ih =>
    rw [generateAllSignalsLoop_cons] at h
    cases hr : (GenerateSignal env now symbol).1 with
    | error e =>
      rw [hr] at h
      simp only [consFailed] at h
      exact ih h
    | ok sig2 =>
      rw [hr] at h
      simp only [consClassified_SellSignals] at h
      by_cases hb : goToUpper sig2.Signal = "SELL"
      · rw [if_pos hb] at h
        rcases List.mem_cons.mp h with rfl | h2
        · exact hb
        · exact ih h2
      · rw [if_neg hb] at h
        exact ih h

theorem generateAllSignalsLoop_hold_dir (env : Env) (now : Int)
    (symbols : List String) (signal : TradingSignal)
    (h : signal ∈ (generateAllSignalsLoop env now symbols).1.HoldSignals) :
    goToUpper signal.Signal ≠ "BUY" ∧ goToUpper signal.Signal ≠ "SELL" := by
  induction symbols with
  | nil => simp [generateAllSignalsLoop, BatchAcc.empty] at h
  | cons symbol rest ih =>
    rw [generateAllSignalsLoop_cons] at h
    cases hr : (GenerateSignal env now symbol).1 with
    | error e =>
      rw [hr] at h
      simp only [consFailed] at h
      exact ih h
    | ok sig2 =>
      rw [hr] at h
      simp only [consClassified_HoldSignals] at h
      by_cases hb : goToUpper sig2.Signal = "BUY" ∨ goToUpper sig2.Signal = "SELL"
      · rw [if_pos hb] at h
        exact ih h
      · rw [if_neg hb] at h
        rcases List.mem_cons.mp h with rfl | h2
        · exact not_or.mp hb
        · exact ih h2

theorem generateAllSignalsSummaryLoop_buy_dir (env : Env) (now : Int)
    (symbols : List String) (signal : TradingSignal)
    (h : signal ∈ (generateAllSignalsSummaryLoop env now symbols).1.BuySignals) :
    goToUpper signal.Signal = "BUY" := by
  induction symbols with
  | nil => simp [generateAllSignalsSummaryLoop, BatchAcc.empty] at h
  | cons symbol rest ih =>
    rw [generateAllSignalsSummaryLoop_cons] at h
    cases h1 : env.fetchOHLCData symbol with
    | error e =>
      rw [h1] at h
      simp only [consFailed] at h
      exact ih h
    | ok ohlcData =>
      rw [h1] at h
      by_cases hlen : ohlcData.length = 0
      · simp only [if_pos hlen] at h
        simp only [consFailed] at h
        exact ih h
      · simp only [if_neg hlen] at h
        cases h2 : GenerateTradingSignal env now symbol ohlcData with
        | error e =>
          rw [h2] at h
          simp only [consFailed] at h
          exact ih h
        | ok sig2 =>
          rw [h2] at h
          simp only [consClassified_BuySignals] at h
          by_cases hb : goToUpper sig2.Signal = "BUY"
          · rw [if_pos hb] at h
            rcases List.mem_cons.mp h with rfl | h3
            · exact hb
            · exact ih h3
          · rw [if_neg hb] at h
            exact ih h

theorem generateAllSignalsSummaryLoop_sell_dir (env : Env) (now : Int)
    (symbols : List String) (signal : TradingSignal)
    (h : signal ∈ (generateAllSignalsSummaryLoop env now symbols).1.SellSignals) :
    goToUpper signal.Signal = "SELL" := by
  induction symbols with
  | nil => simp [generateAllSignalsSummaryLoop, BatchAcc.empty] at h
  | cons symbol rest ih =>
    rw [generateAllSignalsSummaryLoop_cons] at h
    cases h1 : env.fetchOHLCData symbol with
    | error e =>
      rw [h1] at h
      simp only [consFailed] at h
      exact ih h
    | ok ohlcData =>
      rw [h1] at h
      by_cases hlen : ohlcData.length = 0
      · simp only [if_pos hlen] at h
        simp only [consFailed] at h
        exact ih h
      · simp only [if_neg hlen] at h
        cases h2 : GenerateTradingSignal env now symbol ohlcData with
        | error e =>
          rw [h2] at h
          simp only [consFailed] at h
          exact ih h
        | ok sig2 =>
          rw [h2] at h
          simp only [consClassified_SellSignals] at h
          by_cases hb : goToUpper sig2.Signal = "SELL"
          · rw [if_pos hb] at h
            rcases List.mem_cons.mp h with rfl | h3
            · exact hb
            · exact ih h3
          · rw [if_neg hb] at h
            exact ih h

theorem generateAllSignalsSummaryLoop_hold_dir (env : Env) (now : Int)
    (symbols : List String) (signal : TradingSignal)
    (h : signal ∈ (generateAllSignalsSummaryLoop env now symbols).1.HoldSignals) :
    goToUpper signal.Signal ≠ "BUY" ∧ goToUpper signal.Signal ≠ "SELL" := by
  induction symbols with
  | nil => simp [generateAllSignalsSummaryLoop, BatchAcc.empty] at h
  | cons symbol rest ih =>
    rw [generateAllSignalsSummaryLoop_cons] at h
    cases h1 : env.fetchOHLCData symbol with
    | error e =>
      rw [h1] at h
      simp only [consFailed] at h
      exact ih h
    | ok ohlcData =>
      rw [h1] at h
      by_cases hlen : ohlcData.length = 0
      · simp only [if_pos hlen] at h
        simp only [consFailed] at h
        exact ih h
      · simp only [if_neg hlen] at h
        cases h2 : GenerateTradingSignal env now symbol ohlcData with
        | error e =>
          rw [h2] at h
          simp only [consFailed] at h
          exact ih h
        | ok sig2 =>
          rw [h2] at h
          simp only [consClassified_HoldSignals] at h
          by_cases hb : goToUpper sig2.Signal = "BUY" ∨ goToUpper sig2.Signal = "SELL"
          · rw [if_pos hb] at h
            exact ih h
          · rw [if_neg hb] at h
            rcases List.mem_cons.mp h with rfl | h3
            · exact not_or.mp hb
            · exact ih h3

/-! Claim theorems. -/

/-- C1: for every completed batch run (GenerateAllSignals or
GenerateAllSignalsSummary) over a configured symbol list of length N, the
resulting SignalSummary satisfies
`len(BuySignals) + len(SellSignals) + len(HoldSignals) + len(FailedSignals)
 = TotalAnalyzed = N`. -/
theorem c1_batch_bucket_partition (env : Env) (config : Config) (now : Int) :
    ((GenerateAllSignals env config now).1.BuySignals.length
        + (GenerateAllSignals env config now).1.SellSignals.length
        + (GenerateAllSignals env config now).1.HoldSignals.length
        + (GenerateAllSignals env config now).1.FailedSignals.length
          = (GenerateAllSignals env config now).1.TotalAnalyzed
      ∧ (GenerateAllSignals env config now).1.TotalAnalyzed
          = config.StockSymbols.length)
    ∧ ((GenerateAllSignalsSummary env config now).1.BuySignals.length
        + (GenerateAllSignalsSummary env config now).1.SellSignals.length
        + (GenerateAllSignalsSummary env config now).1.HoldSignals.length
        + (GenerateAllSignalsSummary env config now).1.FailedSignals.length
          = (GenerateAllSignalsSummary env config now).1.TotalAnalyzed
      ∧ (GenerateAllSignalsSummary env config now).1.TotalAnalyzed
          = config.StockSymbols.length) :=
  ⟨⟨generateAllSignalsLoop_counts env now config.StockSymbols, rfl⟩,
   ⟨generateAllSignalsSummaryLoop_counts env now config.StockSymbols, rfl⟩⟩

/-- C2: if the k-th configured symbol fails fetch or inference (i.e.
GenerateSignal on it errors), then in both batch variants that symbol is in
the failed list, TotalAnalyzed is still the full list length, and every
configured symbol — including those after k — is still processed (its fetch
call appears in the run's trace); the batch operations are total and return
no error to their caller. -/
theorem c2_partial_failure_isolation (env : Env) (config : Config) (now : Int)
    (k : Nat) (hk : k < config.StockSymbols.length)
    (hfail : exceptOk (GenerateSignal env now (config.StockSymbols.get ⟨k, hk⟩)).1
      = false) :
    (config.StockSymbols.get ⟨k, hk⟩
        ∈ (GenerateAllSignals env config now).1.FailedSignals
      ∧ (GenerateAllSignals env config now).1.TotalAnalyzed
          = config.StockSymbols.length
      ∧ ∀ s ∈ config.StockSymbols,
          Event.fetch s ∈ (GenerateAllSignals env config now).2)
    ∧ (config.StockSymbols.get ⟨k, hk⟩
        ∈ (GenerateAllSignalsSummary env config now).1.FailedSignals
      ∧ (GenerateAllSignalsSummary env config now).1.TotalAnalyzed
          = config.StockSymbols.length
      ∧ ∀ s ∈ config.StockSymbols,
          Event.fetch s ∈ (GenerateAllSignalsSummary env config now).2) := by
  refine ⟨⟨?_, rfl, ?_⟩, ⟨?_, rfl, ?_⟩⟩
  · exact generateAllSignalsLoop_failed_mem env now config.StockSymbols _
      (config.StockSymbols.get_mem _ _) hfail
  · intro s hs
    exact List.mem_append_left _
      (generateAllSignalsLoop_fetch_mem env now config.StockSymbols s hs)
  · exact generateAllSignalsSummaryLoop_failed_mem env now config.StockSymbols _
      (config.StockSymbols.get_mem _ _) hfail
  · intro s hs
    exact List.mem_cons_of_mem _ (List.mem_append_left _
      (generateAllSignalsSummaryLoop_fetch_mem env now config.StockSymbols s hs))

/-- C2 witness: in the concrete environment where symbol "B" fails its fetch,
the batch over ["A", "B"] records "B" as failed with TotalAnalyzed = 2. -/
theorem c2_partial_failure_isolation_witness :
    "B" ∈ (GenerateAllSignals envAB configAB 0).1.FailedSignals
    ∧ (GenerateAllSignals envAB configAB 0).1.TotalAnalyzed = 2
    ∧ "B" ∈ (GenerateAllSignalsSummary envAB configAB 0).1.FailedSignals := by
  have h := c2_partial_failure_isolation envAB configAB 0 1 (by decide) (by decide)
  exact ⟨h.1.1, h.1.2.1, h.2.1⟩

/-- C3 (code behavior at the failing input): for a BUY signal whose stop is
above its entry — risk = 100 - 110 is non-positive — calculateRiskRewardRatio
logs but returns a nil error together with zeroes, so the `err == nil` guard
in formatSignalMessage always passes and the message contains the risk-reward
block with ratio value 0 instead of omitting it, contradicting the intended
omission. The risk and reward formulas themselves are the claimed ones. -/
theorem c3_ratio_block_present_on_nonpositive_risk :
    calculateRiskRewardRatio sigBadBuy = (0, 0, 0, none)
    ∧ formatSignalMessageRatioSection sigBadBuy = some (0, 0, 0)
    ∧ sigBadBuy.Signal = "BUY"
    ∧ sigBadBuy.BuyPrice - sigBadBuy.StopLoss ≤ 0
    ∧ calculateRiskRewardRatio sigBuyRaw
        = (sigBuyRaw.BuyPrice - sigBuyRaw.StopLoss,
            sigBuyRaw.TargetPrice - sigBuyRaw.BuyPrice,
            (sigBuyRaw.TargetPrice - sigBuyRaw.BuyPrice)
              / (sigBuyRaw.BuyPrice - sigBuyRaw.StopLoss), none)
    ∧ calculateRiskRewardRatio sigSellRaw
        = (sigSellRaw.StopLoss - sigSellRaw.BuyPrice,
            sigSellRaw.BuyPrice - sigSellRaw.TargetPrice,
            (sigSellRaw.BuyPrice - sigSellRaw.TargetPrice)
              / (sigSellRaw.StopLoss - sigSellRaw.BuyPrice), none) := by
  refine ⟨?_, ?_, rfl, by norm_num [sigBadBuy], ?_, ?_⟩
  · simp [calculateRiskRewardRatio, sigBadBuy]
    norm_num
  · simp only [formatSignalMessageRatioSection, calculateRiskRewardRatio, sigBadBuy]
    norm_num
    intro h
    simp at h
  · simp [calculateRiskRewardRatio, sigBuyRaw]
    norm_num
  · simp [calculateRiskRewardRatio, sigSellRaw]
    norm_num

/-- C4 counterexample: over the two configured symbols ["TLKM", "BBCA"] in an
environment where every fetch fails, both symbols are analyzed (both fetch
calls appear in the trace) yet the run contains no sleep at all — the
`continue` on failure skips the inter-item delay — so the claimed lower bound
of 3 × (N - 1) sleep units is violated. -/
theorem c4_delay_skipped_counterexample :
    Event.fetch "TLKM" ∈ (GenerateAllSignals envFail configTwo 0).2
    ∧ Event.fetch "BBCA" ∈ (GenerateAllSignals envFail configTwo 0).2
    ∧ configTwo.StockSymbols.length = 2
    ∧ sleepSecondsTotal (GenerateAllSignals envFail configTwo 0).2 = 0
    ∧ ¬ 3 * (configTwo.StockSymbols.length - 1)
        ≤ sleepSecondsTotal (GenerateAllSignals envFail configTwo 0).2 := by
  refine ⟨by decide, by decide, rfl, by decide, by decide⟩

/-- C4 amended: in both batch variants, a 3-second delay follows exactly
each successfully analyzed symbol that is not in last position; iterations
that fail fetch or inference `continue` past the sleep, so the total slept
time is 3 × (number of successful analyses among all but the last symbol) —
equal to 3 × (N - 1) only when every non-final symbol succeeds. -/
theorem c4_delay_after_successes (env : Env) (config : Config) (now : Int) :
    sleepSecondsTotal (GenerateAllSignals env config now).2
        = 3 * config.StockSymbols.dropLast.countP
            (fun s => exceptOk (GenerateSignal env now s).1)
    ∧ sleepSecondsTotal (GenerateAllSignalsSummary env config now).2
        = 3 * config.StockSymbols.dropLast.countP
            (fun s => exceptOk (GenerateSignal env now s).1) := by
  constructor
  · show sleepSecondsTotal ((generateAllSignalsLoop env now config.StockSymbols).2
      ++ [Event.sendSummary _]) = _
    rw [sleepSecondsTotal_append, generateAllSignalsLoop_sleep]
    simp [sleepSecondsTotal, Event.sleepSeconds]
  · show sleepSecondsTotal (Event.sendRequestReceived _ ::
      ((generateAllSignalsSummaryLoop env now config.StockSymbols).2
        ++ [Event.sendSummary _])) = _
    rw [sleepSecondsTotal_cons, sleepSecondsTotal_append,
      generateAllSignalsSummaryLoop_sleep]
    simp [sleepSecondsTotal, Event.sleepSeconds]

/-- C5: in every batch run (both variants), a signal's bucket is determined
by upper-casing its direction: every member of the buy bucket upper-cases to
"BUY", every member of the sell bucket to "SELL", and every member of the
hold bucket to neither — "WAIT", "HOLD" and all unrecognized directions land
in hold, never in an error. -/
theorem c5_bucket_matches_direction (env : Env) (config : Config) (now : Int) :
    (∀ signal ∈ (GenerateAllSignals env config now).1.BuySignals,
        goToUpper signal.Signal = "BUY")
    ∧ (∀ signal ∈ (GenerateAllSignals env config now).1.SellSignals,
        goToUpper signal.Signal = "SELL")
    ∧ (∀ signal ∈ (GenerateAllSignals env config now).1.HoldSignals,
        goToUpper signal.Signal ≠ "BUY" ∧ goToUpper signal.Signal ≠ "SELL")
    ∧ (∀ signal ∈ (GenerateAllSignalsSummary env config now).1.BuySignals,
        goToUpper signal.Signal = "BUY")
    ∧ (∀ signal ∈ (GenerateAllSignalsSummary env config now).1.SellSignals,
        goToUpper signal.Signal = "SELL")
    ∧ (∀ signal ∈ (GenerateAllSignalsSummary env config now).1.HoldSignals,
        goToUpper signal.Signal ≠ "BUY" ∧ goToUpper signal.Signal ≠ "SELL") :=
  ⟨fun signal h => generateAllSignalsLoop_buy_dir env now config.StockSymbols signal h,
   fun signal h => generateAllSignalsLoop_sell_dir env now config.StockSymbols signal h,
   fun signal h => generateAllSignalsLoop_hold_dir env now config.StockSymbols signal h,
   fun signal h =>
     generateAllSignalsSummaryLoop_buy_dir env now config.StockSymbols signal h,
   fun signal h =>
     generateAllSignalsSummaryLoop_sell_dir env now config.StockSymbols signal h,
   fun signal h =>
     generateAllSignalsSummaryLoop_hold_dir env now config.StockSymbols signal h⟩

/-- C5 witness: in the concrete run over ["A", "B"], the produced signal sits
in the buy bucket and its upper-cased direction is "BUY". -/
theorem c5_bucket_matches_direction_witness :
    goToUpper ({ sigBuyRaw with StockSymbol := "A" } : TradingSignal).Signal
      = "BUY" := by
  have hmem : ({ sigBuyRaw with StockSymbol := "A" } : TradingSignal)
      ∈ (GenerateAllSignals envAB configAB 0).1.BuySignals := by
    have he : (GenerateAllSignals envAB configAB 0).1.BuySignals
        = [{ sigBuyRaw with StockSymbol := "A" }] := rfl
    rw [he]
    exact List.mem_singleton.mpr rfl
  exact (c5_bucket_matches_direction envAB configAB 0).1 _ hmem

/-- C6 (code behavior at the failing input): a per-symbol-delivery batch run
(GenerateAllSignals) over one symbol whose analysis succeeds with a BUY
signal performs no per-symbol send at all — its entire delivery trace is the
single summary send — because the individual SendTradingSignal call is
commented out in GenerateSignal; this contradicts the documented /bulk
behavior of delivering each generated signal as it is produced. -/
theorem c6_no_per_symbol_delivery :
    (GenerateAllSignals envOk configOne 0).2.countP Event.isSendSignal = 0
    ∧ (GenerateAllSignals envOk configOne 0).1.BuySignals.length = 1
    ∧ (GenerateAllSignals envOk configOne 0).2
        = [Event.fetch "BBCA", Event.infer "BBCA",
            Event.sendSummary (GenerateAllSignals envOk configOne 0).1] := by
  refine ⟨by decide, by decide, rfl⟩

theorem cacheLookup_updateSignalCache (cache : SignalCache) (symbol : String)
    (t : Int) :
    cacheLookup (updateSignalCache cache symbol t) symbol = some t := by
  induction cache with
  | nil => simp [updateSignalCache, cacheUpdate, cacheLookup]
  | cons p rest ih =>
    obtain ⟨s, t0⟩ := p
    by_cases hs : s = symbol
    · simp [updateSignalCache, cacheUpdate, cacheLookup, hs]
    · simp only [updateSignalCache, cacheUpdate, if_neg hs, cacheLookup]
      exact ih

/-- C7: canGenerateSignal is true iff no timestamp is recorded for the symbol
or at least the cooldown window (SignalCooldownMins minutes = mins × 60 time
units) has elapsed since the recorded timestamp; updateSignalCache overwrites
the symbol's timestamp; hence for a positive cooldown the symbol can generate
before any record, cannot immediately after a record, and can again once the
window has elapsed past the recorded time. -/
theorem c7_cooldown_contract (config : Config) (now t later : Int)
    (cache : SignalCache) (symbol : String) :
    (canGenerateSignal config now cache symbol = true ↔
      (cacheLookup cache symbol = none ∨
        ∃ lastSignal, cacheLookup cache symbol = some lastSignal ∧
          (config.SignalCooldownMins : Int) * 60 ≤ now - lastSignal))
    ∧ cacheLookup (updateSignalCache cache symbol t) symbol = some t
    ∧ canGenerateSignal config now [] symbol = true
    ∧ (0 < config.SignalCooldownMins →
        canGenerateSignal config t (updateSignalCache cache symbol t) symbol = false)
    ∧ ((config.SignalCooldownMins : Int) * 60 ≤ later - t →
        canGenerateSignal config later (updateSignalCache cache symbol t) symbol
          = true) := by
  refine ⟨?_, cacheLookup_updateSignalCache cache symbol t, ?_, ?_, ?_⟩
  · cases hl : cacheLookup cache symbol with
    | none => simp [canGenerateSignal, hl]
    | some lastSignal => simp [canGenerateSignal, hl]
  · simp [canGenerateSignal, cacheLookup]
  · intro hpos
    simp only [canGenerateSignal, cacheLookup_updateSignalCache]
    simp only [sub_self, decide_eq_false_iff_not, not_le]
    positivity
  · intro hel
    simp only [canGenerateSignal, cacheLookup_updateSignalCache]
    simpa using hel

/-- C7 witness: with the 15-minute cooldown of configOne (window 900 time
units) and a fresh cache, "BBCA" can generate at time 0; immediately after a
record at time 100 it cannot; at time 1000 (900 units later) it can again. -/
theorem c7_cooldown_contract_witness :
    canGenerateSignal configOne 0 [] "BBCA" = true
    ∧ canGenerateSignal configOne 100 (updateSignalCache [] "BBCA" 100) "BBCA" = false
    ∧ canGenerateSignal configOne 1000 (updateSignalCache [] "BBCA" 100) "BBCA"
        = true :=
  ⟨(c7_cooldown_contract configOne 0 0 0 [] "BBCA").2.2.1,
   (c7_cooldown_contract configOne 0 100 0 [] "BBCA").2.2.2.1 (by decide),
   (c7_cooldown_contract configOne 0 100 1000 [] "BBCA").2.2.2.2 (by decide)⟩

/-- C8: a configured schedule entry that does not split on ":" into exactly
two fields is skipped while the other entries still register; in particular
the strings ["08:30", "bad", "14:45"] register exactly the two jobs
"30 08 * * *" and "45 14 * * *" and GetScheduleInfo reports active_jobs = 2. -/
theorem c8_schedule_parsing :
    (∀ (pre : List String) (t : String) (post : List String),
        (goSplitOn ':' (goTrimSpace t)).length ≠ 2 →
        cronStart (pre ++ t :: post) = cronStart (pre ++ post))
    ∧ cronStart ["08:30", "bad", "14:45"] = [⟨"30", "08"⟩, ⟨"45", "14"⟩]
    ∧ (GetScheduleInfo ["08:30", "bad", "14:45"]).activeJobs = 2 := by
  refine ⟨?_, by decide, by decide⟩
  intro pre t post h
  induction pre with
  | nil =>
    simp only [List.nil_append]
    by_cases he : goTrimSpace t = ""
    · simp [cronStart, he]
    · rcases hs : goSplitOn ':' (goTrimSpace t) with _ | ⟨a, rest2⟩
      · simp [cronStart, he, hs]
      · rcases rest2 with _ | ⟨b, rest3⟩
        · simp [cronStart, he, hs]
        · rcases rest3 with _ | ⟨c, rest4⟩
          · exfalso
            rw [hs] at h
            simp at h
          · simp [cronStart, he, hs]
  | cons p pre2 ih =>
    simp only [List.cons_append]
    simp only [cronStart]
    rw [ih]

/-- C8 witness: the malformed entry "bad" is skipped — registering
["bad", "14:45"] is the same as registering ["14:45"] — and the concrete
configuration reports two active jobs. -/
theorem c8_schedule_parsing_witness :
    cronStart ["bad", "14:45"] = cronStart ["14:45"]
    ∧ (GetScheduleInfo ["08:30", "bad", "14:45"]).activeJobs = 2 :=
  ⟨c8_schedule_parsing.1 [] "bad" ["14:45"] (by decide),
   c8_schedule_parsing.2.2⟩

/-- C9: GenerateSignal makes exactly one fetch attempt; it returns an error
when the fetch fails or yields zero bars; an inference failure is propagated
as an error; and every successful result is stamped with the requesting
symbol and the current time. -/
theorem c9_generate_signal_contract (env : Env) (now : Int) (symbol : String) :
    (GenerateSignal env now symbol).2.countP Event.isFetch = 1
    ∧ (∀ e, env.fetchOHLCData symbol = .error e →
        (GenerateSignal env now symbol).1
          = .error ("failed to fetch OHLC data: " ++ e))
    ∧ (env.fetchOHLCData symbol = .ok [] →
        (GenerateSignal env now symbol).1
          = .error ("no OHLC data available for " ++ symbol))
    ∧ (∀ ohlcData e, env.fetchOHLCData symbol = .ok ohlcData → ohlcData ≠ [] →
        env.inferSignal symbol ohlcData = .error e →
        (GenerateSignal env now symbol).1
          = .error ("failed to generate AI signal: " ++ e))
    ∧ (∀ signal, (GenerateSignal env now symbol).1 = .ok signal →
        signal.StockSymbol = symbol ∧ signal.GeneratedAt = now) := by
  refine ⟨?_, ?_, ?_, ?_, ?_⟩
  · rcases GenerateSignal_events env now symbol with h | h <;>
      simp [h, Event.isFetch, List.countP_cons]
  · intro e h
    simp [GenerateSignal, h]
  · intro h
    simp [GenerateSignal, h]
  · intro ohlcData e h1 h2 h3
    simp [GenerateSignal, GenerateTradingSignal, h1, h2, h3,
      List.length_eq_zero]
  · intro signal h
    cases h1 : env.fetchOHLCData symbol with
    | error e => simp [GenerateSignal, h1] at h
    | ok ohlcData =>
      by_cases hlen : ohlcData.length = 0
      · simp [GenerateSignal, h1, hlen] at h
      · cases h2 : env.inferSignal symbol ohlcData with
        | error e => simp [GenerateSignal, GenerateTradingSignal, h1, hlen, h2] at h
        | ok raw =>
          simp only [GenerateSignal, GenerateTradingSignal, h1, hlen, h2,
            if_neg hlen] at h
          cases h
          exact ⟨rfl, rfl⟩

/-- C9 witness: the contract evaluated in concrete environments — exactly one
fetch event, the exact fetch-failure error, and the stamped fields of the
successful result. -/
theorem c9_generate_signal_contract_witness :
    (GenerateSignal envOk 7 "BBCA").2.countP Event.isFetch = 1
    ∧ (GenerateSignal envFail 0 "BBCA").1
        = .error "failed to fetch OHLC data: network error"
    ∧ (({ sigBuyRaw with StockSymbol := "BBCA", GeneratedAt := 7 }
          : TradingSignal).StockSymbol = "BBCA"
        ∧ ({ sigBuyRaw with StockSymbol := "BBCA", GeneratedAt := 7 }
          : TradingSignal).GeneratedAt = 7) :=
  ⟨(c9_generate_signal_contract envOk 7 "BBCA").1,
   (c9_generate_signal_contract envFail 0 "BBCA").2.1 "network error" rfl,
   (c9_generate_signal_contract envOk 7 "BBCA").2.2.2.2
     { sigBuyRaw with StockSymbol := "BBCA", GeneratedAt := 7 } rfl⟩

/-- C10: none of the three orchestration operations reads or writes the
cooldown cache — each leaves the service state unchanged and returns the same
result for any two cache states. -/
theorem c10_cache_frame (env : Env) (config : Config) (now : Int)
    (symbol : String) (st st' : ServiceState) :
    (GenerateSignalSt env st now symbol).2 = st
    ∧ (GenerateSignalSt env st now symbol).1 = (GenerateSignalSt env st' now symbol).1
    ∧ (GenerateAllSignalsSt env config st now).2 = st
    ∧ (GenerateAllSignalsSt env config st now).1
        = (GenerateAllSignalsSt env config st' now).1
    ∧ (GenerateAllSignalsSummarySt env config st now).2 = st
    ∧ (GenerateAllSignalsSummarySt env config st now).1
        = (GenerateAllSignalsSummarySt env config st' now).1 :=
  ⟨rfl, rfl, rfl, rfl, rfl, rfl⟩

end DayTrading
